import Mathlib

/-!
Verification of the coordinate-transformation module
(`src/Coordinate_Transformation.py`).

The module builds 3×3 rotation matrices from angles in degrees,
bundles them into coordinate systems (origin + orientation) and
objects (position + rotation), and transforms points and objects
between coordinate systems through the global frame.

The embedding is over the real numbers: `numpy` float arrays become
`Fin 3 → ℝ` vectors and `Matrix (Fin 3) (Fin 3) ℝ` matrices, and
`np.cos` / `np.sin` / `np.radians` become their real counterparts.
-/

open Real Matrix

abbrev Vec3 := Fin 3 → ℝ

abbrev Mat3 := Matrix (Fin 3) (Fin 3) ℝ

/-- `np.radians(deg)`: convert degrees to radians, `deg * π / 180`. -/
noncomputable def radians (deg : ℝ) : ℝ := deg * Real.pi / 180

/-- `rot_x(deg)`: 3×3 rotation matrix about the X-axis (angle in degrees). -/
noncomputable def rot_x (deg : ℝ) : Mat3 :=
  !![1, 0, 0;
     0, Real.cos (radians deg), -Real.sin (radians deg);
     0, Real.sin (radians deg), Real.cos (radians deg)]

/-- `rot_y(deg)`: 3×3 rotation matrix about the Y-axis (angle in degrees). -/
noncomputable def rot_y (deg : ℝ) : Mat3 :=
  !![Real.cos (radians deg), 0, Real.sin (radians deg);
     0, 1, 0;
     -Real.sin (radians deg), 0, Real.cos (radians deg)]

/-- `rot_z(deg)`: 3×3 rotation matrix about the Z-axis (angle in degrees). -/
noncomputable def rot_z (deg : ℝ) : Mat3 :=
  !![Real.cos (radians deg), -Real.sin (radians deg), 0;
     Real.sin (radians deg), Real.cos (radians deg), 0;
     0, 0, 1]

/-- `CoordinateSystem`: an origin in global coordinates plus the
orientation matrix `R` built in `__init__`. -/
structure CoordinateSystem where
  origin : Vec3
  R : Mat3

/-- `CoordinateSystem.__init__(origin, x_deg=0, y_deg=0, z_deg=0)`:
stores the origin and sets `R = Rz @ Ry @ Rx` (rotation order X → Y → Z).
In Python the three angles default to `0`. -/
noncomputable def CoordinateSystem.make (origin : Vec3) (x_deg y_deg z_deg : ℝ) :
    CoordinateSystem :=
  ⟨origin, rot_z z_deg * rot_y y_deg * rot_x x_deg⟩

/-- `transform_point(point, cs1, cs2)`: express in global coordinates as
`cs1.origin + cs1.R @ point`, then return `cs2.R.T @ (point_global - cs2.origin)`. -/
noncomputable def transform_point (point : Vec3) (cs1 cs2 : CoordinateSystem) : Vec3 :=
  Matrix.mulVec (cs2.R)ᵀ (cs1.origin + Matrix.mulVec cs1.R point - cs2.origin)

/-- `Object`: a position plus the object's internal rotation matrix. -/
structure Object where
  position : Vec3
  rotation : Mat3

/-- `Object.__init__(position, x_deg=0, y_deg=0, z_deg=0)`: stores the
position and sets `rotation = Rz @ Ry @ Rx` (rotation order X → Y → Z).
In Python the three angles default to `0`. -/
noncomputable def Object.make (position : Vec3) (x_deg y_deg z_deg : ℝ) : Object :=
  ⟨position, rot_z z_deg * rot_y y_deg * rot_x x_deg⟩

/-- `transform_object(obj, cs1, cs2)`: transform the position with
`transform_point`, express the rotation in global coordinates as
`cs1.R @ obj.rotation`, express it in CSYS2 as `cs2.R.T @ rotation_global`,
then build `out = Object(new_position)` and overwrite `out.rotation`. -/
noncomputable def transform_object (obj : Object) (cs1 cs2 : CoordinateSystem) : Object :=
  let new_position := transform_point obj.position cs1 cs2
  let rotation_global := cs1.R * obj.rotation
  let new_rotation := (cs2.R)ᵀ * rotation_global
  let out := Object.make new_position 0 0 0
  ⟨out.position, new_rotation⟩

/-- A proper rotation matrix: orthonormal with determinant `+1`. -/
def IsRot (M : Mat3) : Prop := M * Mᵀ = 1 ∧ M.det = 1

theorem isRot_one : IsRot 1 := by
  constructor
  · simp
  · simp

theorem rot_x_transpose (deg : ℝ) : (rot_x deg)ᵀ =
    !![1, 0, 0;
       0, Real.cos (radians deg), Real.sin (radians deg);
       0, -Real.sin (radians deg), Real.cos (radians deg)] := by
  ext i j
  fin_cases i <;> fin_cases j <;> rfl

theorem rot_y_transpose (deg : ℝ) : (rot_y deg)ᵀ =
    !![Real.cos (radians deg), 0, -Real.sin (radians deg);
       0, 1, 0;
       Real.sin (radians deg), 0, Real.cos (radians deg)] := by
  ext i j
  fin_cases i <;> fin_cases j <;> rfl

theorem rot_z_transpose (deg : ℝ) : (rot_z deg)ᵀ =
    !![Real.cos (radians deg), Real.sin (radians deg), 0;
       -Real.sin (radians deg), Real.cos (radians deg), 0;
       0, 0, 1] := by
  ext i j
  fin_cases i <;> fin_cases j <;> rfl

theorem rot_x_isRot (deg : ℝ) : IsRot (rot_x deg) := by
  have h := Real.sin_sq_add_cos_sq (radians deg)
  constructor
  · rw [rot_x_transpose, rot_x, Matrix.mul_fin_three, Matrix.one_fin_three]
    ext i j
    fin_cases i <;> fin_cases j <;> simp [Matrix.vecHead, Matrix.vecTail] <;> nlinarith [h]
  · rw [Matrix.det_fin_three]
    simp [rot_x]
    nlinarith [h]

theorem rot_y_isRot (deg : ℝ) : IsRot (rot_y deg) := by
  have h := Real.sin_sq_add_cos_sq (radians deg)
  constructor
  · rw [rot_y_transpose, rot_y, Matrix.mul_fin_three, Matrix.one_fin_three]
    ext i j
    fin_cases i <;> fin_cases j <;> simp [Matrix.vecHead, Matrix.vecTail] <;> nlinarith [h]
  · rw [Matrix.det_fin_three]
    simp [rot_y]
    nlinarith [h]

theorem rot_z_isRot (deg : ℝ) : IsRot (rot_z deg) := by
  have h := Real.sin_sq_add_cos_sq (radians deg)
  constructor
  · rw [rot_z_transpose, rot_z, Matrix.mul_fin_three, Matrix.one_fin_three]
    ext i j
    fin_cases i <;> fin_cases j <;> simp [Matrix.vecHead, Matrix.vecTail] <;> nlinarith [h]
  · rw [Matrix.det_fin_three]
    simp [rot_z]
    nlinarith [h]

theorem IsRot.mul {M N : Mat3} (hM : IsRot M) (hN : IsRot N) : IsRot (M * N) := by
  constructor
  · rw [Matrix.transpose_mul, show M * N * (Nᵀ * Mᵀ) = M * (N * Nᵀ) * Mᵀ by
      noncomm_ring, hN.1, mul_one, hM.1]
  · rw [Matrix.det_mul, hM.2, hN.2, mul_one]

theorem IsRot.transpose {M : Mat3} (hM : IsRot M) : IsRot Mᵀ := by
  constructor
  · rw [Matrix.transpose_transpose, Matrix.mul_eq_one_comm.mp hM.1]
  · rw [Matrix.det_transpose, hM.2]

theorem IsRot.transpose_mul_self {M : Mat3} (hM : IsRot M) : Mᵀ * M = 1 :=
  Matrix.mul_eq_one_comm.mp hM.1

theorem IsRot.mulVec_transpose_mulVec {M : Mat3} (hM : IsRot M) (v : Vec3) :
    Matrix.mulVec M (Matrix.mulVec Mᵀ v) = v := by
  rw [Matrix.mulVec_mulVec, hM.1, Matrix.one_mulVec]

theorem IsRot.transpose_mulVec_mulVec {M : Mat3} (hM : IsRot M) (v : Vec3) :
    Matrix.mulVec Mᵀ (Matrix.mulVec M v) = v := by
  rw [Matrix.mulVec_mulVec, hM.transpose_mul_self, Matrix.one_mulVec]

theorem isRot_make (origin : Vec3) (x_deg y_deg z_deg : ℝ) :
    IsRot (CoordinateSystem.make origin x_deg y_deg z_deg).R :=
  ((rot_z_isRot z_deg).mul (rot_y_isRot y_deg)).mul (rot_x_isRot x_deg)

theorem radians_zero : radians 0 = 0 := by
  rw [radians]; ring

theorem rot_x_zero : rot_x 0 = 1 := by
  ext i j
  fin_cases i <;> fin_cases j <;>
    simp [rot_x, radians_zero, Matrix.one_apply, Matrix.vecHead, Matrix.vecTail]

theorem rot_y_zero : rot_y 0 = 1 := by
  ext i j
  fin_cases i <;> fin_cases j <;>
    simp [rot_y, radians_zero, Matrix.one_apply, Matrix.vecHead, Matrix.vecTail]

theorem rot_z_zero : rot_z 0 = 1 := by
  ext i j
  fin_cases i <;> fin_cases j <;>
    simp [rot_z, radians_zero, Matrix.one_apply, Matrix.vecHead, Matrix.vecTail]

theorem transform_point_roundtrip_aux (p : Vec3) (cs1 cs2 : CoordinateSystem)
    (h1 : IsRot cs1.R) (h2 : IsRot cs2.R) :
    transform_point (transform_point p cs1 cs2) cs2 cs1 = p := by
  have e1 : Matrix.mulVec cs2.R (transform_point p cs1 cs2)
      = cs1.origin + Matrix.mulVec cs1.R p - cs2.origin :=
    h2.mulVec_transpose_mulVec _
  show Matrix.mulVec (cs1.R)ᵀ
      (cs2.origin + Matrix.mulVec cs2.R (transform_point p cs1 cs2) - cs1.origin) = p
  rw [e1]
  have e2 : cs2.origin + (cs1.origin + Matrix.mulVec cs1.R p - cs2.origin) - cs1.origin
      = Matrix.mulVec cs1.R p := by
    abel
  rw [e2, h1.transpose_mulVec_mulVec]

theorem rotation_roundtrip_aux (M : Mat3) (cs1 cs2 : CoordinateSystem)
    (h1 : IsRot cs1.R) (h2 : IsRot cs2.R) :
    (cs1.R)ᵀ * (cs2.R * ((cs2.R)ᵀ * (cs1.R * M))) = M := by
  rw [← Matrix.mul_assoc cs2.R, h2.1, Matrix.one_mul, ← Matrix.mul_assoc,
    h1.transpose_mul_self, Matrix.one_mul]

/-- C1: `transform_point(p, cs1, cs2)` returns exactly
`cs2.Rᵀ · (cs1.origin + cs1.R · p − cs2.origin)`: the point is first mapped
into the global frame via `cs1`'s origin and orientation and then into
`cs2`'s frame via `cs2`'s transposed orientation and origin. -/
theorem transform_point_formula (p : Vec3) (cs1 cs2 : CoordinateSystem) :
    transform_point p cs1 cs2 =
      Matrix.mulVec (cs2.R)ᵀ (cs1.origin + Matrix.mulVec cs1.R p - cs2.origin) := rfl

/-- C2: `transform_object(obj, cs1, cs2)` returns a new object whose position
is `transform_point(obj.position, cs1, cs2)` and whose rotation is
`cs2.Rᵀ · (cs1.R · obj.rotation)`. -/
theorem transform_object_formula (obj : Object) (cs1 cs2 : CoordinateSystem) :
    (transform_object obj cs1 cs2).position = transform_point obj.position cs1 cs2 ∧
    (transform_object obj cs1 cs2).rotation = (cs2.R)ᵀ * (cs1.R * obj.rotation) :=
  ⟨rfl, rfl⟩

/-- C3: for every three angles, the orientation built by the
`CoordinateSystem` constructor and the rotation built by the `Object`
constructor both equal `Rz(z_deg) · Ry(y_deg) · Rx(x_deg)`, in exactly that
multiplication order (the Python defaults of `0` are covered since the
angles are universally quantified). -/
theorem constructor_build_order (origin position : Vec3) (x_deg y_deg z_deg : ℝ) :
    (CoordinateSystem.make origin x_deg y_deg z_deg).R =
      rot_z z_deg * rot_y y_deg * rot_x x_deg ∧
    (Object.make position x_deg y_deg z_deg).rotation =
      rot_z z_deg * rot_y y_deg * rot_x x_deg :=
  ⟨rfl, rfl⟩

/-- C4: `rot_x`, `rot_y`, `rot_z` always return proper rotations
(`M · Mᵀ = 1`, `det M = 1`; over ℝ this is exact), and every product the
program forms — frame orientations, object rotations, and the rotation
computed by `transform_object` — is again a proper rotation. -/
theorem rotation_invariants (deg x_deg y_deg z_deg : ℝ) (origin position : Vec3)
    (obj : Object) (cs1 cs2 : CoordinateSystem)
    (h1 : IsRot cs1.R) (h2 : IsRot cs2.R) (hobj : IsRot obj.rotation) :
    IsRot (rot_x deg) ∧ IsRot (rot_y deg) ∧ IsRot (rot_z deg) ∧
    IsRot (CoordinateSystem.make origin x_deg y_deg z_deg).R ∧
    IsRot (Object.make position x_deg y_deg z_deg).rotation ∧
    IsRot (transform_object obj cs1 cs2).rotation :=
  ⟨rot_x_isRot deg, rot_y_isRot deg, rot_z_isRot deg,
    isRot_make origin x_deg y_deg z_deg,
    ((rot_z_isRot z_deg).mul (rot_y_isRot y_deg)).mul (rot_x_isRot x_deg),
    h2.transpose.mul (h1.mul hobj)⟩

/-- Witness for C4 at concrete inputs: all angles `0`, identity frames and
an identity-rotation object. -/
theorem rotation_invariants_witness :
    IsRot (rot_x 0) ∧ IsRot (rot_y 0) ∧ IsRot (rot_z 0) ∧
    IsRot (CoordinateSystem.make ![0, 0, 0] 0 0 0).R ∧
    IsRot (Object.make ![0, 0, 0] 0 0 0).rotation ∧
    IsRot (transform_object (Object.mk ![0, 0, 0] 1)
      (CoordinateSystem.mk ![0, 0, 0] 1) (CoordinateSystem.mk ![0, 0, 0] 1)).rotation :=
  rotation_invariants 0 0 0 0 ![0, 0, 0] ![0, 0, 0]
    (Object.mk ![0, 0, 0] 1) (CoordinateSystem.mk ![0, 0, 0] 1)
    (CoordinateSystem.mk ![0, 0, 0] 1) isRot_one isRot_one isRot_one

/-- C5: the inverse round-trip — transforming a point from `cs1` to `cs2`
and back returns the original point. Over ℝ the identity is exact, which
implies in particular the claimed approximate identity. -/
theorem transform_point_roundtrip (p o1 o2 : Vec3) (x1 y1 z1 x2 y2 z2 : ℝ) :
    transform_point
      (transform_point p (CoordinateSystem.make o1 x1 y1 z1)
        (CoordinateSystem.make o2 x2 y2 z2))
      (CoordinateSystem.make o2 x2 y2 z2) (CoordinateSystem.make o1 x1 y1 z1) = p :=
  transform_point_roundtrip_aux p _ _ (isRot_make o1 x1 y1 z1) (isRot_make o2 x2 y2 z2)

/-- C8: on a point-only object (all angles `0`, hence identity rotation) the
position computed by `transform_object` is exactly the value of
`transform_point` on the object's position — both run the same expression. -/
theorem point_only_object_position (p : Vec3) (cs1 cs2 : CoordinateSystem) :
    (transform_object (Object.make p 0 0 0) cs1 cs2).position =
      transform_point (Object.make p 0 0 0).position cs1 cs2 := rfl

/-- C10: the inverse round-trip for whole objects — transforming an object
from `cs1` to `cs2` and back returns an object with the original position
and rotation. Over ℝ the identity is exact. -/
theorem transform_object_roundtrip (obj : Object) (o1 o2 : Vec3)
    (x1 y1 z1 x2 y2 z2 : ℝ) :
    (transform_object
      (transform_object obj (CoordinateSystem.make o1 x1 y1 z1)
        (CoordinateSystem.make o2 x2 y2 z2))
      (CoordinateSystem.make o2 x2 y2 z2)
      (CoordinateSystem.make o1 x1 y1 z1)).position = obj.position ∧
    (transform_object
      (transform_object obj (CoordinateSystem.make o1 x1 y1 z1)
        (CoordinateSystem.make o2 x2 y2 z2))
      (CoordinateSystem.make o2 x2 y2 z2)
      (CoordinateSystem.make o1 x1 y1 z1)).rotation = obj.rotation :=
  ⟨transform_point_roundtrip_aux obj.position _ _
      (isRot_make o1 x1 y1 z1) (isRot_make o2 x2 y2 z2),
    rotation_roundtrip_aux obj.rotation _ _
      (isRot_make o1 x1 y1 z1) (isRot_make o2 x2 y2 z2)⟩

theorem radians_ninety : radians 90 = Real.pi / 2 := by
  rw [radians]; ring

theorem radians_six : radians 6 = Real.pi / 30 := by
  rw [radians]; ring

theorem rot_z_ninety : rot_z 90 = !![0, -1, 0; 1, 0, 0; 0, 0, 1] := by
  rw [rot_z, radians_ninety, Real.cos_pi_div_two, Real.sin_pi_div_two]

theorem make_id_R : (CoordinateSystem.make ![0, 0, 0] 0 0 0).R = 1 := by
  show rot_z 0 * rot_y 0 * rot_x 0 = 1
  rw [rot_x_zero, rot_y_zero, rot_z_zero, mul_one, mul_one]

theorem make_z90_R : (CoordinateSystem.make ![0, 0, 0] 0 0 90).R =
    !![0, -1, 0; 1, 0, 0; 0, 0, 1] := by
  show rot_z 90 * rot_y 0 * rot_x 0 = _
  rw [rot_x_zero, rot_y_zero, rot_z_ninety, mul_one, mul_one]

theorem z90_eval :
    transform_point ![1, 0, 0] (CoordinateSystem.make ![0, 0, 0] 0 0 0)
      (CoordinateSystem.make ![0, 0, 0] 0 0 90) = ![0, -1, 0] := by
  show Matrix.mulVec ((CoordinateSystem.make ![0, 0, 0] 0 0 90).R)ᵀ
      ((![0, 0, 0] : Vec3) +
        Matrix.mulVec (CoordinateSystem.make ![0, 0, 0] 0 0 0).R ![1, 0, 0] -
        ![0, 0, 0]) = ![0, -1, 0]
  rw [make_id_R, make_z90_R]
  ext i
  fin_cases i <;>
    simp [Matrix.mulVec, Matrix.dotProduct, Fin.sum_univ_three, Matrix.transpose_apply,
      Matrix.vecHead, Matrix.vecTail]

/-- C6 counterexample: with both frames at the origin, angles `(0,0,0)` and
`(0,0,90)`, transforming `[1,0,0]` does NOT yield (approximately) `[0,1,0]`:
the second component is exactly `-1`, at distance `2` from the claimed `1`. -/
theorem transform_point_z90_counterexample :
    transform_point ![1, 0, 0] (CoordinateSystem.make ![0, 0, 0] 0 0 0)
        (CoordinateSystem.make ![0, 0, 0] 0 0 90) ≠ ![0, 1, 0] ∧
    |transform_point ![1, 0, 0] (CoordinateSystem.make ![0, 0, 0] 0 0 0)
        (CoordinateSystem.make ![0, 0, 0] 0 0 90) 1 - 1| = 2 := by
  constructor
  · intro h
    have h1 := congrFun h 1
    rw [z90_eval] at h1
    simp at h1
    norm_num at h1
  · rw [z90_eval]
    norm_num

/-- C6 amended: with both frames at the origin, angles `(0,0,0)` and
`(0,0,90)`, transforming `[1,0,0]` from the first frame into the second
yields exactly `[0,-1,0]`. -/
theorem transform_point_z90 :
    transform_point ![1, 0, 0] (CoordinateSystem.make ![0, 0, 0] 0 0 0)
      (CoordinateSystem.make ![0, 0, 0] 0 0 90) = ![0, -1, 0] :=
  z90_eval

theorem make_z6_R : (CoordinateSystem.make ![10, 5, 3] 0 0 6).R = rot_z 6 := by
  show rot_z 6 * rot_y 0 * rot_x 0 = _
  rw [rot_x_zero, rot_y_zero, mul_one, mul_one]

theorem selftest_eval :
    transform_point ![1, 0, 0] (CoordinateSystem.make ![0, 0, 0] 0 0 0)
      (CoordinateSystem.make ![10, 5, 3] 0 0 6) =
    ![-9 * Real.cos (Real.pi / 30) - 5 * Real.sin (Real.pi / 30),
      9 * Real.sin (Real.pi / 30) - 5 * Real.cos (Real.pi / 30), -3] := by
  show Matrix.mulVec ((CoordinateSystem.make ![10, 5, 3] 0 0 6).R)ᵀ
      ((![0, 0, 0] : Vec3) +
        Matrix.mulVec (CoordinateSystem.make ![0, 0, 0] 0 0 0).R ![1, 0, 0] -
        ![10, 5, 3]) = _
  rw [make_id_R, make_z6_R, rot_z_transpose, radians_six]
  ext i
  fin_cases i <;>
    simp [Matrix.mulVec, Matrix.dotProduct, Fin.sum_univ_three,
      Matrix.vecHead, Matrix.vecTail] <;>
    ring

theorem pi_div_30_bounds : 0.10471 < Real.pi / 30 ∧ Real.pi / 30 < 0.10472 := by
  have hl := Real.pi_gt_d6
  have hu := Real.pi_lt_d6
  constructor <;> norm_num <;> linarith

theorem sin_pi_div_30_bounds :
    0.1044 < Real.sin (Real.pi / 30) ∧ Real.sin (Real.pi / 30) < 0.1048 := by
  obtain ⟨hl, hu⟩ := pi_div_30_bounds
  have hpos : (0 : ℝ) < Real.pi / 30 := by linarith
  constructor
  · have h := Real.sin_gt_sub_cube hpos (by linarith)
    have hcube : (Real.pi / 30) ^ 3 < 0.10472 ^ 3 :=
      pow_lt_pow_left₀ hu hpos.le (by norm_num)
    nlinarith
  · have h := Real.sin_lt hpos
    linarith

theorem cos_pi_div_30_bounds :
    0.99451 < Real.cos (Real.pi / 30) ∧ Real.cos (Real.pi / 30) < 0.99453 := by
  obtain ⟨hl, hu⟩ := pi_div_30_bounds
  have hpos : (0 : ℝ) < Real.pi / 30 := by linarith
  constructor
  · have h := Real.one_sub_sq_div_two_lt_cos (ne_of_gt hpos)
    have hsq : (Real.pi / 30) ^ 2 < 0.10472 ^ 2 :=
      pow_lt_pow_left₀ hu hpos.le (by norm_num)
    nlinarith
  · have hhalf : Real.cos (Real.pi / 30) = 1 - 2 * Real.sin (Real.pi / 60) ^ 2 := by
      have h2 : Real.pi / 30 = 2 * (Real.pi / 60) := by ring
      have hpy := Real.sin_sq_add_cos_sq (Real.pi / 60)
      rw [h2, Real.cos_two_mul]
      linarith
    have hylo : 0.0523598 < Real.pi / 60 := by linarith [Real.pi_gt_d6]
    have hyhi : Real.pi / 60 < 0.05236 := by linarith
    have hypos : (0 : ℝ) < Real.pi / 60 := by linarith
    have hs := Real.sin_gt_sub_cube hypos (by linarith)
    have hycube : (Real.pi / 60) ^ 3 < 0.05236 ^ 3 :=
      pow_lt_pow_left₀ hyhi hypos.le (by norm_num)
    have hslo : 0.05232 < Real.sin (Real.pi / 60) := by nlinarith
    nlinarith

/-- C7 counterexample: in the self-test scenario
(`cs1 = ([0,0,0], (0,0,0))`, `cs2 = ([10,5,3], (0,0,6))`, `p = [1,0,0]`) the
result of `transform_point` is NOT approximately `[-8.947, -5.209, -3.0]`:
its second component differs from `-5.209` by more than `1`
(the true value is `9·sin 6° - 5·cos 6° ≈ -4.032`). -/
theorem transform_point_selftest_counterexample :
    1 < |transform_point ![1, 0, 0] (CoordinateSystem.make ![0, 0, 0] 0 0 0)
          (CoordinateSystem.make ![10, 5, 3] 0 0 6) 1 - (-5.209)| := by
  obtain ⟨hs, _⟩ := sin_pi_div_30_bounds
  obtain ⟨_, hc⟩ := cos_pi_div_30_bounds
  rw [selftest_eval]
  have h1 : (1 : ℝ) <
      (9 * Real.sin (Real.pi / 30) - 5 * Real.cos (Real.pi / 30)) - (-5.209) := by
    nlinarith
  calc (1 : ℝ) < (9 * Real.sin (Real.pi / 30) - 5 * Real.cos (Real.pi / 30)) - (-5.209) := h1
    _ ≤ |(![(-9) * Real.cos (Real.pi / 30) - 5 * Real.sin (Real.pi / 30),
          9 * Real.sin (Real.pi / 30) - 5 * Real.cos (Real.pi / 30), -3] : Vec3) 1
          - (-5.209)| := by
        simp only [Matrix.cons_val_one, Matrix.head_cons]
        exact le_abs_self _

/-- C7 amended: in the self-test scenario the result of `transform_point`
equals `cs2.Rᵀ · (cs1.origin + cs1.R·p − cs2.origin)`, and that value is
numerically approximately `[-9.473, -4.032, -3.0]` (first two components
within `0.01`, third exactly `-3`). -/
theorem transform_point_selftest :
    transform_point ![1, 0, 0] (CoordinateSystem.make ![0, 0, 0] 0 0 0)
        (CoordinateSystem.make ![10, 5, 3] 0 0 6) =
      Matrix.mulVec ((CoordinateSystem.make ![10, 5, 3] 0 0 6).R)ᵀ
        ((CoordinateSystem.make ![0, 0, 0] 0 0 0).origin +
          Matrix.mulVec (CoordinateSystem.make ![0, 0, 0] 0 0 0).R ![1, 0, 0] -
          (CoordinateSystem.make ![10, 5, 3] 0 0 6).origin) ∧
    |transform_point ![1, 0, 0] (CoordinateSystem.make ![0, 0, 0] 0 0 0)
        (CoordinateSystem.make ![10, 5, 3] 0 0 6) 0 - (-9.473)| < 0.01 ∧
    |transform_point ![1, 0, 0] (CoordinateSystem.make ![0, 0, 0] 0 0 0)
        (CoordinateSystem.make ![10, 5, 3] 0 0 6) 1 - (-4.032)| < 0.01 ∧
    transform_point ![1, 0, 0] (CoordinateSystem.make ![0, 0, 0] 0 0 0)
        (CoordinateSystem.make ![10, 5, 3] 0 0 6) 2 = -3 := by
  obtain ⟨hsl, hsu⟩ := sin_pi_div_30_bounds
  obtain ⟨hcl, hcu⟩ := cos_pi_div_30_bounds
  refine ⟨rfl, ?_, ?_, ?_⟩
  · rw [selftest_eval]
    simp only [Matrix.cons_val_zero]
    rw [abs_lt]
    constructor <;> nlinarith
  · rw [selftest_eval]
    simp only [Matrix.cons_val_one, Matrix.head_cons]
    rw [abs_lt]
    constructor <;> nlinarith
  · rw [selftest_eval]
    simp

/-- A store of allocated `Object` instances, used to model Python's heap:
an `Object` reference is an index into the store. -/
structure Store where
  cells : List Object

/-- Dereference an object: read the cell at index `i`. -/
def Store.read (st : Store) (i : Nat) : Option Object := st.cells[i]?

/-- `Object(...)`: allocate a fresh cell and return the new store together
with the fresh reference (never an existing index). -/
def Store.alloc (st : Store) (o : Object) : Store × Nat :=
  (⟨st.cells ++ [o]⟩, st.cells.length)

/-- `out.rotation = new_rotation`: overwrite the rotation field of the cell
at index `i`, leaving every other cell untouched. -/
def Store.setRotation (st : Store) (i : Nat) (m : Mat3) : Store :=
  match st.cells[i]? with
  | some o => ⟨st.cells.set i ⟨o.position, m⟩⟩
  | none => st

/-- `transform_object` at the heap level: dereference `obj`, compute the new
position and rotation from the dereferenced values only, allocate
`out = Object(new_position)`, overwrite `out.rotation`, return `out`. -/
noncomputable def transform_object_ref (st : Store) (i : Nat)
    (cs1 cs2 : CoordinateSystem) : Option (Store × Nat) :=
  (st.read i).map (fun obj =>
    let new_position := transform_point obj.position cs1 cs2
    let rotation_global := cs1.R * obj.rotation
    let new_rotation := (cs2.R)ᵀ * rotation_global
    let res := st.alloc (Object.make new_position 0 0 0)
    (Store.setRotation res.1 res.2 new_rotation, res.2))

theorem setRotation_eq (cells : List Object) (i : Nat) (o : Object) (m : Mat3)
    (h : cells[i]? = some o) :
    Store.setRotation ⟨cells⟩ i m = ⟨cells.set i ⟨o.position, m⟩⟩ := by
  unfold Store.setRotation
  rw [h]

/-- C9: `transform_object` mutates neither its object argument nor any other
pre-existing cell, and returns a distinct, freshly allocated instance
holding the transformed position and rotation. -/
theorem transform_object_no_mutation (st : Store) (i : Nat) (obj : Object)
    (cs1 cs2 : CoordinateSystem) (h : st.read i = some obj) :
    ∃ st' j, transform_object_ref st i cs1 cs2 = some (st', j) ∧
      j ≠ i ∧
      (∀ k, k < st.cells.length → st'.read k = st.read k) ∧
      st'.read j = some (transform_object obj cs1 cs2) := by
  have hi : i < st.cells.length := (List.getElem?_eq_some.mp h).1
  have hcat : (st.cells ++
      [Object.make (transform_point obj.position cs1 cs2) 0 0 0])[st.cells.length]? =
      some (Object.make (transform_point obj.position cs1 cs2) 0 0 0) :=
    List.getElem?_concat_length _ _
  refine ⟨⟨(st.cells ++ [Object.make (transform_point obj.position cs1 cs2) 0 0 0]).set
      st.cells.length
      ⟨(Object.make (transform_point obj.position cs1 cs2) 0 0 0).position,
        (cs2.R)ᵀ * (cs1.R * obj.rotation)⟩⟩,
    st.cells.length, ?_, by omega, ?_, ?_⟩
  · rw [transform_object_ref, h, Option.map_some']
    show some (Store.setRotation
        ⟨st.cells ++ [Object.make (transform_point obj.position cs1 cs2) 0 0 0]⟩
        st.cells.length ((cs2.R)ᵀ * (cs1.R * obj.rotation)), st.cells.length) = _
    rw [setRotation_eq _ _ _ _ hcat]
  · intro k hk
    show ((st.cells ++ [Object.make (transform_point obj.position cs1 cs2) 0 0 0]).set
        st.cells.length _)[k]? = st.cells[k]?
    rw [List.getElem?_set_ne (by omega), List.getElem?_append]
    simp [hk]
  · show ((st.cells ++ [Object.make (transform_point obj.position cs1 cs2) 0 0 0]).set
        st.cells.length _)[st.cells.length]? = _
    rw [List.getElem?_set_eq_of_lt _ (by simp)]
    rfl

/-- Witness for C9: a one-cell store holding an identity-rotation object at
the origin, transformed between two identity frames. -/
theorem transform_object_no_mutation_witness :
    ∃ st' j,
      transform_object_ref (Store.mk [Object.mk ![0, 0, 0] 1]) 0
        (CoordinateSystem.mk ![0, 0, 0] 1) (CoordinateSystem.mk ![0, 0, 0] 1) =
        some (st', j) ∧
      j ≠ 0 ∧
      (∀ k, k < (Store.mk [Object.mk ![0, 0, 0] 1]).cells.length →
        st'.read k = (Store.mk [Object.mk ![0, 0, 0] 1]).read k) ∧
      st'.read j = some (transform_object (Object.mk ![0, 0, 0] 1)
        (CoordinateSystem.mk ![0, 0, 0] 1) (CoordinateSystem.mk ![0, 0, 0] 1)) :=
  transform_object_no_mutation (Store.mk [Object.mk ![0, 0, 0] 1]) 0
    (Object.mk ![0, 0, 0] 1) (CoordinateSystem.mk ![0, 0, 0] 1)
    (CoordinateSystem.mk ![0, 0, 0] 1) rfl
